import Mathlib

/-!
Verification development for the `mission_sequencer` package: a shallow
embedding of the mission state machine, waypoint navigator, command
dispatcher and message conversion helpers declared in
`include/mission_sequencer/mission_sequencer.hpp` and
`include/mission_sequencer/utils/message_conversion.hpp`.

The repository ships only the headers; where the behaviour of a member
function is not given by the header itself, the definition below is
modelled from the specification (its doc comment says so explicitly).
-/

namespace MissionSequencerModel

/-- The sequencer phase enum `SequencerState` from
`mission_sequencer.hpp` lines 47-56: `IDLE, PREARM, ARM, MISSION, HOLD,
LAND, DISARM`, in this declaration order. -/
inductive SequencerState
  | IDLE
  | PREARM
  | ARM
  | MISSION
  | HOLD
  | LAND
  | DISARM
  deriving DecidableEq

/-- The C++ enum ordinal of each `SequencerState` value (enumerators are
assigned 0,1,2,... in declaration order). -/
def stateOrd : SequencerState → Nat
  | .IDLE => 0
  | .PREARM => 1
  | .ARM => 2
  | .MISSION => 3
  | .HOLD => 4
  | .LAND => 5
  | .DISARM => 6

/-- The name of each `SequencerState` enumerator, as written in the
source. -/
def stateName : SequencerState → String
  | .IDLE => "IDLE"
  | .PREARM => "PREARM"
  | .ARM => "ARM"
  | .MISSION => "MISSION"
  | .HOLD => "HOLD"
  | .LAND => "LAND"
  | .DISARM => "DISARM"

/-- The lookup table `StateStr` from `mission_sequencer.hpp` line 58:
`{ "IDLE", "ARM", "MISSION", "HOLD", "LAND", "DISARM" }` (six entries;
note the source initialiser has no entry for `PREARM`). -/
def StateStr : List String := ["IDLE", "ARM", "MISSION", "HOLD", "LAND", "DISARM"]

/-- A `mission_sequencer::MissionWaypoint` message element: the fields
read by `WaypointArray2WaypointList` (`x, y, z, yaw, holdtime`).
Numeric fields are modelled as reals. -/
structure MissionWaypoint where
  x : ℝ
  y : ℝ
  z : ℝ
  yaw : ℝ
  holdtime : ℝ

/-- A `ParseWaypoint::Waypoint`: `{ x, y, z, yaw, holdtime }`
(spec section 3), constructed by `ParseWaypoint::Waypoint(x, y, z, yaw,
holdtime)`. -/
structure Waypoint where
  x : ℝ
  y : ℝ
  z : ℝ
  yaw : ℝ
  holdtime : ℝ

/-- `MSMsgConv::WaypointArray2WaypointList` from
`message_conversion.hpp` lines 23-32: iterates over the input array in
order and appends `ParseWaypoint::Waypoint(wp.x, wp.y, wp.z, wp.yaw,
wp.holdtime)` for each element. -/
def WaypointArray2WaypointList : List MissionWaypoint → List Waypoint
  | [] => []
  | wp :: rest => ⟨wp.x, wp.y, wp.z, wp.yaw, wp.holdtime⟩ :: WaypointArray2WaypointList rest

/-- The per-element conversion performed by the loop body of
`WaypointArray2WaypointList`. -/
def waypointOfMsg (wp : MissionWaypoint) : Waypoint :=
  ⟨wp.x, wp.y, wp.z, wp.yaw, wp.holdtime⟩

/-- A pose `{ position: (x,y,z), orientation: yaw }` (spec section 3),
standing for `geometry_msgs::PoseStamped` with the orientation reduced
to its yaw angle, as the sequencer's navigation logic uses it. -/
structure Pose where
  x : ℝ
  y : ℝ
  z : ℝ
  yaw : ℝ

/-- Modelled from the spec: the `MissionRequest::request` type values
`{ARM, TAKEOFF, START_MISSION, HOLD, RESUME, LAND, ABORT, DISARM}`
(spec section 3); the message definition is not under `src/`. -/
inductive RequestType
  | ARM
  | TAKEOFF
  | START_MISSION
  | HOLD
  | RESUME
  | LAND
  | ABORT
  | DISARM
  deriving DecidableEq

/-- Modelled from the spec: a `mission_sequencer::MissionRequest`
message `{ requestType, missionId, waypoints }` with the
`requestNumber` of spec section 6; the message definition is not under
`src/`. -/
structure MissionRequest where
  missionId : Int
  requestNumber : Int
  requestType : RequestType
  waypoints : List Waypoint

/-- Modelled from the spec: a `mission_sequencer::MissionResponse`
`{ missionId, requestNumber, response: bool (accepted), completed:
bool }` (spec section 6), the payload of `publishResponse(int id,
int request, bool response, bool completed)`; the message definition
and `publishResponse`'s body are not under `src/`. -/
structure MissionResponse where
  missionId : Int
  requestNumber : Int
  accepted : Bool
  completed : Bool
  deriving DecidableEq

/-- The response accepting request `r` (acceptance reported at request
time, completion later). -/
def acceptResponse (r : MissionRequest) : MissionResponse :=
  ⟨r.missionId, r.requestNumber, true, false⟩

/-- The response rejecting request `r`: `accepted=false,
completed=false`. -/
def rejectResponse (r : MissionRequest) : MissionResponse :=
  ⟨r.missionId, r.requestNumber, false, false⟩

/-- The response reporting request `r` accepted and already completed
(e.g. mission-complete on an empty waypoint list). -/
def completedResponse (r : MissionRequest) : MissionResponse :=
  ⟨r.missionId, r.requestNumber, true, true⟩

/-- The state owned by the `MissionSequencer` class, restricted to the
members the state-machine logic reads: the phase
`current_sequencer_state_`, the telemetry validity flags
(`mission_sequencer.hpp` lines 123-125), the navigation poses (lines
133-134), the mission progress (`waypointList_`, `reachedWaypoint_`,
lines 145-146), the `relWaypoints_` and `automatically_land_` flags,
and a flag recording whether the current mission's starting pose has
already been captured (spec section 4.1). -/
structure SeqState where
  current_sequencer_state : SequencerState
  b_pose_is_valid : Bool
  b_state_is_valid : Bool
  b_extstate_is_valid : Bool
  starting_vehicle_pose : Pose
  current_vehicle_pose : Pose
  waypointList : List Waypoint
  currentWaypointIndex : Nat
  reachedWaypoint : Bool
  relWaypoints : Bool
  automatically_land : Bool
  starting_pose_captured : Bool

/-- Modelled from the spec: which request types are phase-appropriate,
read off the transition table of spec section 4.4 (the body of
`cbMSRequest` is not under `src/`): `ARM` from `IDLE`; `TAKEOFF`,
`START_MISSION` and `DISARM` from `ARM`; `HOLD` from `MISSION`;
`RESUME` and `LAND` from `HOLD`; `ABORT` from any state except
`IDLE`/`DISARM`. -/
def requestAppropriate : SequencerState → RequestType → Bool
  | p, .ABORT => p ≠ .IDLE && p ≠ .DISARM
  | .IDLE, .ARM => true
  | .ARM, .TAKEOFF => true
  | .ARM, .START_MISSION => true
  | .ARM, .DISARM => true
  | .MISSION, .HOLD => true
  | .HOLD, .RESUME => true
  | .HOLD, .LAND => true
  | _, _ => false

/-- Modelled from the spec: the request-handling logic of
`cbMSRequest` (declared at `mission_sequencer.hpp` line 103, body not
under `src/`), per the transition table and request rules of spec
sections 4.4 and 7: `ABORT` is accepted from any state except
`IDLE`/`DISARM` and routes to `DISARM`; `ARM` in `IDLE` is accepted
only once the pose and state feeds are valid, moves to `PREARM` and
re-arms the per-mission starting-pose capture; `START_MISSION` with an
empty waypoint list reports mission-complete immediately without
entering `MISSION`; a phase-inappropriate request is rejected with
`accepted=false, completed=false` and leaves the state unchanged. -/
def processRequest (s : SeqState) (r : MissionRequest) : SeqState × MissionResponse :=
  if r.requestType = .ABORT then
    if s.current_sequencer_state ≠ .IDLE ∧ s.current_sequencer_state ≠ .DISARM then
      ({ s with current_sequencer_state := .DISARM }, acceptResponse r)
    else
      (s, rejectResponse r)
  else
    match s.current_sequencer_state, r.requestType with
    | .IDLE, .ARM =>
      if s.b_pose_is_valid && s.b_state_is_valid then
        ({ s with current_sequencer_state := .PREARM, starting_pose_captured := false },
          acceptResponse r)
      else
        (s, rejectResponse r)
    | .ARM, .TAKEOFF => ({ s with current_sequencer_state := .MISSION }, acceptResponse r)
    | .ARM, .START_MISSION =>
      if r.waypoints.isEmpty then
        (s, completedResponse r)
      else
        ({ s with current_sequencer_state := .MISSION, waypointList := r.waypoints,
                  currentWaypointIndex := 0, reachedWaypoint := false },
          acceptResponse r)
    | .ARM, .DISARM => ({ s with current_sequencer_state := .DISARM }, acceptResponse r)
    | .MISSION, .HOLD => ({ s with current_sequencer_state := .HOLD }, acceptResponse r)
    | .HOLD, .RESUME => ({ s with current_sequencer_state := .MISSION }, acceptResponse r)
    | .HOLD, .LAND => ({ s with current_sequencer_state := .LAND }, acceptResponse r)
    | _, _ => (s, rejectResponse r)

/-- Processing, in arrival order, all requests pending at a tick
boundary (spec section 5: requests arrive asynchronously and are
applied at the next tick boundary). -/
def processRequestList (s : SeqState) (reqs : List MissionRequest) : SeqState :=
  reqs.foldl (fun st r => (processRequest st r).1) s

/-- Modelled from the spec: `cbPose` (declared at
`mission_sequencer.hpp` lines 94-101, body not under `src/`). It
stores the received pose as the current vehicle pose, marks the pose
feed valid (spec section 4.1: set true on first receipt, never reset),
and records the starting pose from the first pose sample of the
current mission; the capture happens exactly once per mission, not per
sample (spec section 4.1). -/
def cbPose (s : SeqState) (p : Pose) : SeqState :=
  { s with
    current_vehicle_pose := p
    b_pose_is_valid := true
    starting_vehicle_pose := if s.starting_pose_captured then s.starting_vehicle_pose else p
    starting_pose_captured := true }

/-- The four command classes of the command dispatcher (spec section
4.3): arm, disarm, set-offboard-mode, land. -/
inductive CommandClass
  | arm
  | disarm
  | setOffboardMode
  | land
  deriving DecidableEq

/-- A `PendingCommand` per command class (spec section 3):
`{ issuedAt: timestamp, outstanding: bool }`. Timestamps are modelled
as rationals. -/
structure PendingCommand where
  outstanding : Bool
  issuedAt : ℚ
  deriving DecidableEq

/-- The command dispatcher's per-class records, matching the members
`armCmd_`/`armRequestTime_`, `disarmCmd_`/`disarmRequestTime_`,
`offboardMode_`/`offboardRequestTime_` and `landCmd_` of
`mission_sequencer.hpp` lines 149-155. -/
structure CommandDispatcher where
  armCmd : PendingCommand
  disarmCmd : PendingCommand
  offboardCmd : PendingCommand
  landCmd : PendingCommand
  deriving DecidableEq

/-- The record the dispatcher keeps for a given command class. -/
def getCmd (d : CommandDispatcher) : CommandClass → PendingCommand
  | .arm => d.armCmd
  | .disarm => d.disarmCmd
  | .setOffboardMode => d.offboardCmd
  | .land => d.landCmd

/-- Replacing the record the dispatcher keeps for a given command
class. -/
def setCmd (d : CommandDispatcher) : CommandClass → PendingCommand → CommandDispatcher
  | .arm, c => { d with armCmd := c }
  | .disarm, c => { d with disarmCmd := c }
  | .setOffboardMode, c => { d with offboardCmd := c }
  | .land, c => { d with landCmd := c }

/-- Modelled from the spec: `issue() -> accepted: bool` of the command
dispatcher (spec section 4.3; the dispatcher logic around
`armRequestTime_` etc. is not under `src/`): issuing while the class
is already outstanding is a no-op returning `false`; otherwise the
command becomes outstanding with its timestamp set to `now` and
`issue` returns `true`. -/
def issue (d : CommandDispatcher) (cls : CommandClass) (now : ℚ) :
    CommandDispatcher × Bool :=
  if (getCmd d cls).outstanding then (d, false)
  else (setCmd d cls ⟨true, now⟩, true)

/-- `isOutstanding() -> bool` of the command dispatcher (spec section
4.3). -/
def isOutstanding (d : CommandDispatcher) (cls : CommandClass) : Bool :=
  (getCmd d cls).outstanding

/-- Modelled from the spec: `hasTimedOut(now, timeoutDuration)` of the
command dispatcher (spec section 4.3): an outstanding command is timed
out once more than `timeoutDuration` elapsed since it was issued. -/
def hasTimedOut (d : CommandDispatcher) (cls : CommandClass) (now timeoutDuration : ℚ) :
    Bool :=
  isOutstanding d cls && decide (timeoutDuration < now - (getCmd d cls).issuedAt)

/-- Modelled from the spec: wrapping an angle to `[-pi, pi]` for the
yaw-error comparison (spec section 4.2; the navigator's body is not
under `src/`). Yaw differences of poses lie in `(-2*pi, 2*pi)`, so a
single correction step suffices. -/
noncomputable def wrapToPi (a : ℝ) : ℝ :=
  if a > Real.pi then a - 2 * Real.pi
  else if a < -Real.pi then a + 2 * Real.pi
  else a

/-- Modelled from the spec: the horizontal-plus-vertical position
error between the current pose and a target pose (spec section 4.2). -/
noncomputable def posError (p target : Pose) : ℝ :=
  Real.sqrt ((p.x - target.x) ^ 2 + (p.y - target.y) ^ 2) + |p.z - target.z|

/-- Modelled from the spec: the absolute yaw error between the current
pose and a target pose, wrapped to `[-pi, pi]` (spec section 4.2). -/
noncomputable def yawError (p target : Pose) : ℝ :=
  |wrapToPi (p.yaw - target.yaw)|

/-- Modelled from the spec: `waypointToPoseStamped` (declared at
`mission_sequencer.hpp` line 178, body not under `src/`): resolves a
waypoint to the commanded absolute pose, adding the waypoint's
`(x,y,z,yaw)` offsets to the recorded starting pose when
`relWaypoints_` is set, at read time (spec sections 3 and 4.2). -/
def waypointToPoseStamped (s : SeqState) (wp : Waypoint) : Pose :=
  if s.relWaypoints then
    ⟨s.starting_vehicle_pose.x + wp.x, s.starting_vehicle_pose.y + wp.y,
      s.starting_vehicle_pose.z + wp.z, s.starting_vehicle_pose.yaw + wp.yaw⟩
  else
    ⟨wp.x, wp.y, wp.z, wp.yaw⟩

/-- Modelled from the spec: the waypoint-reached check
`isReached(currentPose)` of the waypoint navigator (spec section 4.2;
the body using `thresholdPosition_`/`thresholdYaw_` and
`reachedWaypoint_` is not under `src/`): against the waypoint at the
current index, resolved by `waypointToPoseStamped`, the position error
must be within `thresholdPosition` and the wrapped absolute yaw error
within `thresholdYaw`. -/
def isReached (s : SeqState) (thresholdPosition thresholdYaw : ℝ) (p : Pose) : Prop :=
  match s.waypointList.get? s.currentWaypointIndex with
  | none => False
  | some wp =>
    posError p (waypointToPoseStamped s wp) ≤ thresholdPosition ∧
      yawError p (waypointToPoseStamped s wp) ≤ thresholdYaw

/-- Modelled from the spec: the phase entered on mission completion
(spec section 4.4, `MISSION` row): `LAND` when auto-land is enabled,
else `HOLD`. -/
def missionCompleteTarget (autoLand : Bool) : SequencerState :=
  if autoLand then .LAND else .HOLD

/-- The state of a freshly constructed `MissionSequencer`: the
telemetry validity flags and `automatically_land_` take their in-class
initialisers from `mission_sequencer.hpp` lines 123-125 and 163 (all
`false`); the initial phase is `IDLE` and the remaining members are
empty/zero (spec sections 3 and 4.4; the constructor body is not under
`src/`). -/
def initState : SeqState where
  current_sequencer_state := .IDLE
  b_pose_is_valid := false
  b_state_is_valid := false
  b_extstate_is_valid := false
  starting_vehicle_pose := ⟨0, 0, 0, 0⟩
  current_vehicle_pose := ⟨0, 0, 0, 0⟩
  waypointList := []
  currentWaypointIndex := 0
  reachedWaypoint := false
  relWaypoints := false
  automatically_land := false
  starting_pose_captured := false

/-- A sequencer state in phase `ph` (all other members as at
construction), used to instantiate universally quantified theorems. -/
def mkState (ph : SequencerState) : SeqState :=
  { initState with current_sequencer_state := ph }

/-- A concrete `ABORT` request. -/
def abortRequest : MissionRequest := ⟨1, 1, .ABORT, []⟩

/-- A concrete `START_MISSION` request with an empty waypoint list. -/
def emptyStartRequest : MissionRequest := ⟨2, 2, .START_MISSION, []⟩

/-- A concrete `ARM` request. -/
def armRequest : MissionRequest := ⟨3, 3, .ARM, []⟩

/-- A sequencer state in `IDLE` with valid pose and state feeds. -/
def readyIdleState : SeqState :=
  { initState with b_pose_is_valid := true, b_state_is_valid := true }

/-- A sequencer state holding a single waypoint at the origin, with
absolute waypoints. -/
def reachState : SeqState :=
  { initState with waypointList := [⟨0, 0, 0, 0, 0⟩] }

/-- A sequencer state with relative waypoints enabled and starting pose
`(0,0,0,0)`. -/
def relState : SeqState :=
  { initState with relWaypoints := true }

/-- A dispatcher whose arm command is outstanding (issued at time 5)
and whose other classes are free. -/
def busyArmDispatcher : CommandDispatcher :=
  ⟨⟨true, 5⟩, ⟨false, 0⟩, ⟨false, 0⟩, ⟨false, 0⟩⟩

theorem waypointArray2WaypointList_eq_map (arr : List MissionWaypoint) :
    WaypointArray2WaypointList arr = arr.map waypointOfMsg := by
  induction arr with
  | nil => rfl
  | cons wp rest ih => simp [WaypointArray2WaypointList, waypointOfMsg, ih]

/-- Helper: no request handled by `processRequest` moves the phase to
`IDLE` (only tick-driven disarm confirmation does). -/
theorem processRequest_phase_ne_idle (s : SeqState) (r : MissionRequest)
    (h : s.current_sequencer_state ≠ .IDLE) :
    (processRequest s r).1.current_sequencer_state ≠ .IDLE := by
  cases hph : s.current_sequencer_state <;> cases hrt : r.requestType <;>
    simp_all [processRequest, acceptResponse, rejectResponse, completedResponse]
  split <;> simp_all

/-- Helper: in phase `DISARM` every request is rejected and the state
is unchanged. -/
theorem processRequest_disarm_absorbs (s : SeqState) (r : MissionRequest)
    (h : s.current_sequencer_state = .DISARM) :
    processRequest s r = (s, rejectResponse r) := by
  cases hrt : r.requestType <;> simp_all [processRequest]

/-- Helper: a pending-request list never moves the phase out of
`DISARM`. -/
theorem processRequestList_disarm_absorbs (reqs : List MissionRequest) :
    ∀ s : SeqState, s.current_sequencer_state = .DISARM → processRequestList s reqs = s := by
  induction reqs with
  | nil => intro s _; rfl
  | cons r rest ih =>
    intro s h
    have hstep := processRequest_disarm_absorbs s r h
    simp only [processRequestList, List.foldl_cons, hstep]
    exact ih s h

/-- Helper: processing an `ABORT` request in a phase other than
`IDLE`/`DISARM` accepts it and moves the phase to `DISARM`. -/
theorem processRequest_abort (s : SeqState) (r : MissionRequest)
    (h1 : s.current_sequencer_state ≠ .IDLE) (h2 : s.current_sequencer_state ≠ .DISARM)
    (ht : r.requestType = .ABORT) :
    processRequest s r =
      ({ s with current_sequencer_state := .DISARM }, acceptResponse r) := by
  simp [processRequest, ht, h1, h2]

/-- Helper: if an `ABORT` request is among the requests pending at a
tick boundary and the phase is neither `IDLE` nor `DISARM`, the tick
ends in phase `DISARM`. -/
theorem abort_in_pending_disarms (reqs : List MissionRequest) :
    ∀ s : SeqState, s.current_sequencer_state ≠ .IDLE →
      s.current_sequencer_state ≠ .DISARM →
      (∃ r ∈ reqs, r.requestType = .ABORT) →
      (processRequestList s reqs).current_sequencer_state = .DISARM := by
  induction reqs with
  | nil => intro s _ _ hex; simp at hex
  | cons r0 rest ih =>
    intro s h1 h2 hex
    by_cases habort : r0.requestType = .ABORT
    · have hstep := processRequest_abort s r0 h1 h2 habort
      simp only [processRequestList, List.foldl_cons, hstep]
      exact congrArg SeqState.current_sequencer_state
        (processRequestList_disarm_absorbs rest _ rfl)
    · rcases hex with ⟨r, hr, hrt⟩
      rcases List.mem_cons.mp hr with hr0 | hrrest
      · exact absurd (hr0 ▸ hrt) habort
      · have h1' := processRequest_phase_ne_idle s r0 h1
        by_cases hd : (processRequest s r0).1.current_sequencer_state = .DISARM
        · simp only [processRequestList, List.foldl_cons]
          exact congrArg SeqState.current_sequencer_state
            (processRequestList_disarm_absorbs rest _ hd) ▸ hd ▸ rfl
        · simp only [processRequestList, List.foldl_cons]
          exact ih _ h1' hd ⟨r, hrrest, hrt⟩

/-- C1: from every phase other than `IDLE` and `DISARM`, an `ABORT`
request is accepted and moves the phase to `DISARM` within the tick
that processes it, irrespective of mission progress; and whenever an
`ABORT` is among the requests pending at a tick boundary, that tick
ends in phase `DISARM`, whatever the other pending requests are. -/
theorem abort_always_disarms (s : SeqState) (r : MissionRequest)
    (h1 : s.current_sequencer_state ≠ .IDLE)
    (h2 : s.current_sequencer_state ≠ .DISARM)
    (ht : r.requestType = .ABORT) :
    ((processRequest s r).2.accepted = true ∧
      (processRequest s r).1.current_sequencer_state = .DISARM) ∧
    ∀ reqs : List MissionRequest, r ∈ reqs →
      (processRequestList s reqs).current_sequencer_state = .DISARM := by
  constructor
  · rw [processRequest_abort s r h1 h2 ht]
    exact ⟨rfl, rfl⟩
  · intro reqs hmem
    exact abort_in_pending_disarms reqs s h1 h2 ⟨r, hmem, ht⟩

/-- Witness for C1 at phase `MISSION` with a concrete `ABORT`
request. -/
theorem abort_always_disarms_witness :
    ((processRequest (mkState .MISSION) abortRequest).2.accepted = true ∧
      (processRequest (mkState .MISSION) abortRequest).1.current_sequencer_state = .DISARM) ∧
    (processRequestList (mkState .MISSION) [abortRequest]).current_sequencer_state = .DISARM := by
  have h := abort_always_disarms (mkState .MISSION) abortRequest
    (by simp [mkState, initState]) (by simp [mkState, initState]) rfl
  exact ⟨h.1, h.2 [abortRequest] (List.mem_singleton.mpr rfl)⟩

/-- C2: for every command class, calling `issue` while a command of
that class is already outstanding is a no-op: it returns `false`,
leaves the whole dispatcher (in particular the outstanding-request
timestamp) unchanged, and so never creates a second outstanding
command of that class. -/
theorem issue_while_outstanding_noop (d : CommandDispatcher) (cls : CommandClass)
    (now : ℚ) (h : (getCmd d cls).outstanding = true) :
    issue d cls now = (d, false) ∧
    (getCmd (issue d cls now).1 cls).issuedAt = (getCmd d cls).issuedAt ∧
    isOutstanding (issue d cls now).1 cls = isOutstanding d cls := by
  refine ⟨?_, ?_, ?_⟩ <;> simp [issue, isOutstanding, h]

/-- Witness for C2 on a dispatcher with an outstanding arm command. -/
theorem issue_while_outstanding_noop_witness :
    issue busyArmDispatcher .arm 7 = (busyArmDispatcher, false) ∧
    (getCmd (issue busyArmDispatcher .arm 7).1 .arm).issuedAt =
      (getCmd busyArmDispatcher .arm).issuedAt ∧
    isOutstanding (issue busyArmDispatcher .arm 7).1 .arm =
      isOutstanding busyArmDispatcher .arm :=
  issue_while_outstanding_noop busyArmDispatcher .arm 7 rfl

/-- C3: a `START_MISSION` request with an empty waypoint list leaves
the sequencer state completely unchanged — in particular the `MISSION`
phase is never entered — and, when processed in the phase that accepts
mission starts (`ARM`), it is answered immediately with
`accepted=true, completed=true`. -/
theorem empty_mission_completes_immediately (s : SeqState) (r : MissionRequest)
    (ht : r.requestType = .START_MISSION) (hw : r.waypoints = []) :
    (processRequest s r).1 = s ∧
    (s.current_sequencer_state = .ARM →
      (processRequest s r).2.accepted = true ∧
      (processRequest s r).2.completed = true) := by
  cases hph : s.current_sequencer_state <;>
    simp_all [processRequest, completedResponse, rejectResponse]

/-- Witness for C3 in phase `ARM` with a concrete empty
`START_MISSION` request. -/
theorem empty_mission_completes_immediately_witness :
    (processRequest (mkState .ARM) emptyStartRequest).1 = mkState .ARM ∧
    ((mkState .ARM).current_sequencer_state = .ARM →
      (processRequest (mkState .ARM) emptyStartRequest).2.accepted = true ∧
      (processRequest (mkState .ARM) emptyStartRequest).2.completed = true) :=
  empty_mission_completes_immediately (mkState .ARM) emptyStartRequest rfl rfl

/-- C4: with the current index in range, the waypoint-reached check
holds if and only if the position error (horizontal plus vertical) to
the indexed waypoint's resolved position is at most the position
threshold and the absolute yaw error, wrapped to `[-pi, pi]`, is at
most the yaw threshold. -/
theorem isReached_iff_thresholds (s : SeqState) (tP tY : ℝ) (p : Pose)
    (h : s.currentWaypointIndex < s.waypointList.length) :
    isReached s tP tY p ↔
      (posError p (waypointToPoseStamped s
          (s.waypointList.get ⟨s.currentWaypointIndex, h⟩)) ≤ tP ∧
        yawError p (waypointToPoseStamped s
          (s.waypointList.get ⟨s.currentWaypointIndex, h⟩)) ≤ tY) := by
  simp [isReached, List.getElem?_eq_getElem h]

/-- Witness for C4: with a single origin waypoint, thresholds 1, and
the current pose at the origin, the reached check holds. -/
theorem isReached_iff_thresholds_witness : isReached reachState 1 1 ⟨0, 0, 0, 0⟩ := by
  have hlt : reachState.currentWaypointIndex < reachState.waypointList.length := by
    simp [reachState, initState]
  refine (isReached_iff_thresholds reachState 1 1 ⟨0, 0, 0, 0⟩ hlt).mpr ?_
  have hpin : ¬ (Real.pi < (0 : ℝ)) := not_lt.mpr (le_of_lt Real.pi_pos)
  constructor
  · simp [reachState, initState, waypointToPoseStamped, posError]
  · simp [reachState, initState, waypointToPoseStamped, yawError, wrapToPi, hpin]

/-- C5: a request whose type is inappropriate for the current phase is
rejected synchronously with `accepted=false, completed=false`, and the
whole sequencer state — phase and all owned state — is unchanged. -/
theorem inappropriate_request_rejected (s : SeqState) (r : MissionRequest)
    (h : requestAppropriate s.current_sequencer_state r.requestType = false) :
    processRequest s r = (s, rejectResponse r) ∧
    (processRequest s r).2.accepted = false ∧
    (processRequest s r).2.completed = false := by
  have hmain : processRequest s r = (s, rejectResponse r) := by
    cases hph : s.current_sequencer_state <;> cases hrt : r.requestType <;>
      simp_all [processRequest, requestAppropriate]
  exact ⟨hmain, by rw [hmain]; rfl, by rw [hmain]; rfl⟩

/-- Witness for C5: a `START_MISSION` request while in `LAND` is
rejected and the state is unchanged. -/
theorem inappropriate_request_rejected_witness :
    processRequest (mkState .LAND) emptyStartRequest =
      (mkState .LAND, rejectResponse emptyStartRequest) ∧
    (processRequest (mkState .LAND) emptyStartRequest).2.accepted = false ∧
    (processRequest (mkState .LAND) emptyStartRequest).2.completed = false :=
  inappropriate_request_rejected (mkState .LAND) emptyStartRequest rfl

/-- C6: with the relative-waypoints flag set, the resolved absolute
target equals the starting pose plus the waypoint's `(x,y,z,yaw)`
offsets, read from the state at resolution time. -/
theorem relative_waypoint_resolution (s : SeqState) (wp : Waypoint)
    (h : s.relWaypoints = true) :
    waypointToPoseStamped s wp =
      ⟨s.starting_vehicle_pose.x + wp.x, s.starting_vehicle_pose.y + wp.y,
        s.starting_vehicle_pose.z + wp.z, s.starting_vehicle_pose.yaw + wp.yaw⟩ := by
  simp [waypointToPoseStamped, h]

/-- Witness for C6, the round-trip of the spec: starting pose
`(0,0,0,0)` and waypoint offset `(1,2,0,0)` resolve to the absolute
target `(1,2,0,0)`. -/
theorem relative_waypoint_resolution_witness :
    waypointToPoseStamped relState ⟨1, 2, 0, 0, 0⟩ = ⟨1, 2, 0, 0⟩ := by
  rw [relative_waypoint_resolution relState ⟨1, 2, 0, 0, 0⟩ rfl]
  simp [relState, initState]

/-- C7: the starting pose is captured from the first pose sample while
the per-mission capture flag is unset, and exactly once per mission:
once captured, further samples update only the current pose and leave
the starting pose untouched; accepting a new mission's `ARM` request
from `IDLE` re-arms the capture, so the next mission captures afresh
from its own first sample. -/
theorem starting_pose_captured_once_per_mission (s : SeqState) (p : Pose)
    (r : MissionRequest) :
    (s.starting_pose_captured = false →
      (cbPose s p).starting_vehicle_pose = p) ∧
    (s.starting_pose_captured = true →
      (cbPose s p).starting_vehicle_pose = s.starting_vehicle_pose) ∧
    (cbPose s p).starting_pose_captured = true ∧
    (cbPose s p).current_vehicle_pose = p ∧
    (s.current_sequencer_state = .IDLE → r.requestType = .ARM →
      s.b_pose_is_valid = true → s.b_state_is_valid = true →
      (processRequest s r).1.starting_pose_captured = false) := by
  refine ⟨fun h => by simp [cbPose, h], fun h => by simp [cbPose, h], rfl, rfl, ?_⟩
  intro hph hrt hp hst
  simp [processRequest, hph, hrt, hp, hst]

/-- Witness for C7: a fresh capture, a repeated sample, and a new
mission start, all on concrete states. -/
theorem starting_pose_captured_once_per_mission_witness :
    ((readyIdleState.starting_pose_captured = false →
      (cbPose readyIdleState ⟨1, 2, 3, 0⟩).starting_vehicle_pose = ⟨1, 2, 3, 0⟩) ∧
    (readyIdleState.starting_pose_captured = true →
      (cbPose readyIdleState ⟨1, 2, 3, 0⟩).starting_vehicle_pose =
        readyIdleState.starting_vehicle_pose) ∧
    (cbPose readyIdleState ⟨1, 2, 3, 0⟩).starting_pose_captured = true ∧
    (cbPose readyIdleState ⟨1, 2, 3, 0⟩).current_vehicle_pose = ⟨1, 2, 3, 0⟩ ∧
    (readyIdleState.current_sequencer_state = .IDLE →
      armRequest.requestType = .ARM →
      readyIdleState.b_pose_is_valid = true → readyIdleState.b_state_is_valid = true →
      (processRequest readyIdleState armRequest).1.starting_pose_captured = false)) ∧
    (processRequest readyIdleState armRequest).1.starting_pose_captured = false :=
  ⟨starting_pose_captured_once_per_mission readyIdleState ⟨1, 2, 3, 0⟩ armRequest,
    (starting_pose_captured_once_per_mission readyIdleState ⟨1, 2, 3, 0⟩
      armRequest).2.2.2.2 rfl rfl rfl rfl⟩

/-- C8: the `StateStr` table has six entries while the enum has seven
values: for every state of ordinal at least 1, `StateStr` at that
ordinal is not the state's name, and the ordinal of `DISARM` (6) is
not an index of the table at all — in C++, indexing `StateStr` with it
reads past the end of the array. -/
theorem stateStr_misaligned (s : SequencerState) (h : 1 ≤ stateOrd s) :
    StateStr.get? (stateOrd s) ≠ some (stateName s) ∧
    StateStr.length = 6 ∧
    StateStr.length ≤ stateOrd SequencerState.DISARM ∧
    StateStr.get? (stateOrd SequencerState.DISARM) = none := by
  revert h
  cases s <;> decide

/-- Witness for C8 at `PREARM` (ordinal 1, whose lookup wrongly yields
"ARM"). -/
theorem stateStr_misaligned_witness :
    1 ≤ stateOrd SequencerState.PREARM ∧
    (StateStr.get? (stateOrd SequencerState.PREARM) ≠
        some (stateName SequencerState.PREARM) ∧
      StateStr.length = 6 ∧
      StateStr.length ≤ stateOrd SequencerState.DISARM ∧
      StateStr.get? (stateOrd SequencerState.DISARM) = none) :=
  ⟨by decide, stateStr_misaligned SequencerState.PREARM (by decide)⟩

/-- C9: `WaypointArray2WaypointList` preserves the length of its input
and maps the i-th input element to a waypoint carrying exactly its
`x, y, z, yaw, holdtime` fields, in order; the empty array maps to the
empty list. -/
theorem waypointArray2WaypointList_pointwise (arr : List MissionWaypoint) :
    (WaypointArray2WaypointList arr).length = arr.length ∧
    (∀ i : Nat, (WaypointArray2WaypointList arr).get? i =
      (arr.get? i).map (fun wp => ⟨wp.x, wp.y, wp.z, wp.yaw, wp.holdtime⟩)) ∧
    WaypointArray2WaypointList [] = [] := by
  refine ⟨?_, fun i => ?_, rfl⟩
  · rw [waypointArray2WaypointList_eq_map]
    exact List.length_map arr waypointOfMsg
  · rw [waypointArray2WaypointList_eq_map]
    simp only [List.get?_eq_getElem?, List.getElem?_map]
    rfl

/-- C10: at construction all three telemetry validity flags and
`automatically_land_` are `false`; consequently no request can move
the freshly constructed sequencer out of `IDLE` (every request is
rejected with the state unchanged), and mission completion routes to
`HOLD`, not `LAND`. -/
theorem initial_state_flags (r : MissionRequest) :
    initState.b_pose_is_valid = false ∧
    initState.b_state_is_valid = false ∧
    initState.b_extstate_is_valid = false ∧
    initState.automatically_land = false ∧
    processRequest initState r = (initState, rejectResponse r) ∧
    missionCompleteTarget initState.automatically_land = .HOLD := by
  refine ⟨rfl, rfl, rfl, rfl, ?_, rfl⟩
  cases hrt : r.requestType <;> simp [processRequest, hrt, initState]

end MissionSequencerModel
